import Mathlib

/-!
Shallow embedding of the portfolio/documentation repository: the `Image`
wrapper component, the Next.js build configuration (`next.config.mjs`),
the shared layout configuration (`src/app/layout.config.tsx`) and the
front-matter and image references of the MDX content documents.
-/

namespace Portfolio

/-- Props of the `Image` wrapper component: `src` and `alt` are required
strings, `width` and `height` are optional numbers. -/
structure ImageProps where
  src : String
  alt : String
  width : Option Nat
  height : Option Nat
deriving DecidableEq

/-- The `next/image` element rendered inside the wrapper, with the style
object and `priority` flag the wrapper sets on it. -/
structure NextImageElement where
  src : String
  alt : String
  width : Nat
  height : Nat
  styleWidth : String
  styleHeight : String
  priority : Bool
deriving DecidableEq

/-- The `div` the wrapper renders, with its inline style and its single
`next/image` child. -/
structure ImageElement where
  styleWidth : String
  styleMaxWidth : String
  child : NextImageElement
deriving DecidableEq

/-- The `Image` component: destructures its props with defaults
`width = 800`, `height = 600` and renders a `div` (width 100 percent, max
width 800px) holding a `next/image` with the given `src`, `alt`, `width`,
`height`, style `width 100 percent, height auto`, and `priority` set. -/
def Image (p : ImageProps) : ImageElement :=
  let width := p.width.getD 800
  let height := p.height.getD 600
  { styleWidth := "100%"
    styleMaxWidth := "800px"
    child :=
      { src := p.src
        alt := p.alt
        width := width
        height := height
        styleWidth := "100%"
        styleHeight := "auto"
        priority := true } }

/-- The `images` block of the Next.js configuration. -/
structure ImagesConfig where
  remotePatterns : List String
  unoptimized : Bool
  dangerouslyAllowSVG : Bool
  contentDispositionType : String
  contentSecurityPolicy : String
deriving DecidableEq

/-- A webpack module rule as pushed by the configuration's `webpack`
function. Its test regex is recorded by its alternative extensions after
the literal dot (the source pattern `jpe?g` expands to `jpg` and `jpeg`)
together with its case-insensitivity flag. -/
structure ModuleRule where
  testExts : List String
  testCaseInsensitive : Bool
  ruleType : String
  generatorFilename : String
deriving DecidableEq

/-- ASCII case folding of one character, as the regex `i` flag performs on
the ASCII letters of the pattern. -/
def asciiLower (c : Char) : Char :=
  if 65 ≤ c.toNat ∧ c.toNat ≤ 90 then Char.ofNat (c.toNat + 32) else c

/-- Whether `suff` is a suffix of `s`, on character lists. -/
def listEndsWith (s suff : List Char) : Bool :=
  List.drop (s.length - suff.length) s == suff

/-- Whether the string `s` ends with `suff`, compared case-insensitively
(both sides folded to lower case; the patterns used here are already
lower-case ASCII). -/
def strEndsWithCI (s suff : String) : Bool :=
  listEndsWith (s.data.map asciiLower) (suff.data.map asciiLower)

/-- Whether the rule's test regex matches a file name: the pattern is a
literal dot, one of the alternative extensions and the end anchor, and the
`i` flag makes the comparison case-insensitive. -/
def ModuleRule.test (r : ModuleRule) (name : String) : Bool :=
  r.testExts.any fun ext =>
    if r.testCaseInsensitive then strEndsWithCI name ("." ++ ext)
    else listEndsWith name.data ("." ++ ext).data

/-- The output path the rule assigns to a file: its generator filename when
the test matches, nothing otherwise. -/
def ModuleRule.output (r : ModuleRule) (name : String) : Option String :=
  if r.test name then some r.generatorFilename else none

/-- The asset rule pushed by the configuration's `webpack` function:
test regex with alternatives `png`, `jpe?g`, `gif`, `svg` and the `i`
flag, type `asset/resource`, generator filename
`static/media/[name].[hash][ext]`. -/
def assetRule : ModuleRule :=
  { testExts := ["png", "jpg", "jpeg", "gif", "svg"]
    testCaseInsensitive := true
    ruleType := "asset/resource"
    generatorFilename := "static/media/[name].[hash][ext]" }

/-- The part of the webpack configuration the `webpack` function touches:
its list of module rules. -/
structure WebpackConfig where
  moduleRules : List ModuleRule
deriving DecidableEq

/-- The `webpack` field of the configuration: pushes the asset rule onto
the incoming configuration's module rules and returns it. -/
def configWebpack (c : WebpackConfig) : WebpackConfig :=
  { c with moduleRules := c.moduleRules ++ [assetRule] }

/-- The Next.js configuration object: strict-mode flag, images block and
webpack customisation function. -/
structure NextConfig where
  reactStrictMode : Bool
  images : ImagesConfig
  webpack : WebpackConfig → WebpackConfig

/-- The `config` constant of `next.config.mjs`. -/
def config : NextConfig :=
  { reactStrictMode := true
    images :=
      { remotePatterns := []
        unoptimized := true
        dangerouslyAllowSVG := true
        contentDispositionType := "attachment"
        contentSecurityPolicy := "default-src 'self'; script-src 'none'; sandbox;" }
    webpack := configWebpack }

/-- The options passed to `createMDX`. -/
structure MDXOptions where
  remarkPlugins : List String
  rehypePlugins : List String
  providerImportSource : String
deriving DecidableEq

/-- A Next.js configuration wrapped by the MDX plugin: the plugin options
paired with the base configuration they wrap. -/
structure WrappedConfig where
  mdxOptions : MDXOptions
  base : NextConfig

/-- `createMDX` from `fumadocs-mdx/next`, modelled as pairing its options
with the base configuration it is applied to. -/
def createMDX (opts : MDXOptions) (base : NextConfig) : WrappedConfig :=
  { mdxOptions := opts, base := base }

/-- `withMDX`: `createMDX` applied to the options of `next.config.mjs`
(empty remark and rehype plugin lists, provider import source
`fumadocs-ui/mdx`). -/
def withMDX : NextConfig → WrappedConfig :=
  createMDX
    { remarkPlugins := []
      rehypePlugins := []
      providerImportSource := "fumadocs-ui/mdx" }

/-- The module's default export: `withMDX(config)`. -/
def exportedConfig : WrappedConfig := withMDX config

/-- The `next/image` element rendered inside the layout's nav title, with
the attributes the layout sets on it. -/
structure LayoutImage where
  src : String
  alt : String
  width : Nat
  height : Nat
  className : String
deriving DecidableEq

/-- One fragment of the nav title's JSX children: an image element or a
text node. -/
inductive TitleFragment where
  | image : LayoutImage → TitleFragment
  | text : String → TitleFragment
deriving DecidableEq

/-- The `nav` block of the layout options: its `title` is the list of JSX
fragments inside the fragment element. -/
structure NavConfig where
  title : List TitleFragment
deriving DecidableEq

/-- A nav link item, as in the commented-out `links` block of the source. -/
structure NavLink where
  text : String
  url : String
  active : String
deriving DecidableEq

/-- The fields of `BaseLayoutProps` the repository can set: the nav block
and the optional list of nav links. -/
structure BaseLayoutProps where
  nav : NavConfig
  links : Option (List NavLink)
deriving DecidableEq

/-- `baseOptions` from `src/app/layout.config.tsx`: the nav title holds the
logo image followed by the site title text; the `links` field is not set
(it is commented out in the source, as is an earlier svg logo). -/
def baseOptions : BaseLayoutProps :=
  { nav :=
      { title :=
          [ TitleFragment.image
              { src := "/docs/images/common/john-paul.jpg"
                alt := "Logo"
                width := 32
                height := 32
                className := "rounded-full" }
          , TitleFragment.text "John Paul's Portfolio" ] }
    links := none }

/-- The front-matter of a content document. -/
structure FrontMatter where
  title : String
  description : String
deriving DecidableEq

/-- A content document: its front-matter and the `src` paths of the
`<Image>` elements in its body, in order of appearance. -/
structure ContentDoc where
  frontMatter : FrontMatter
  imageSrcs : List String
deriving DecidableEq

/-- The Finance Tracker document (first document of
`content/docs/(projects)/finance-tracker.mdx`). -/
def financeTrackerDoc : ContentDoc :=
  { frontMatter :=
      { title := "Finance Tracker"
        description := "A finance tracker using Hono API, Next.js, and PostgreSQL" }
    imageSrcs :=
      [ "/docs/images/finance-tracker/finance-tracker-03.jpg"
      , "/docs/images/finance-tracker/finance-tracker-01.jpg"
      , "/docs/images/finance-tracker/finance-tracker-02.jpg" ] }

/-- The CRM Gig Canvas document (second document concatenated in
`content/docs/(projects)/finance-tracker.mdx`). -/
def gigCanvasDoc : ContentDoc :=
  { frontMatter :=
      { title := "CRM Gig Canvas"
        description := "Gig Canvas is a CRM for the Gig Economy" }
    imageSrcs :=
      [ "/docs/images/gig-canvas/main-image.jpg"
      , "/docs/images/gig-canvas/gigcanvas-sign-in.jpg"
      , "/docs/images/gig-canvas/gigcanvas-01.jpg"
      , "/docs/images/gig-canvas/gigcanvas-clients.jpg"
      , "/docs/images/gig-canvas/gigcanvas-single-client.jpg"
      , "/docs/images/gig-canvas/gigcanvas-contacts.jpg"
      , "/docs/images/gig-canvas/gigcanvas-dm.jpg" ] }

/-- The AI PDF Summariser document (third document concatenated in
`content/docs/(projects)/finance-tracker.mdx`). -/
def pdfSummariserDoc : ContentDoc :=
  { frontMatter :=
      { title := "AI PDF Summariser SaaS"
        description := "Summit is a SaaS web application that allows users to upload PDF documents and receive AI-generated, concise summaries." }
    imageSrcs :=
      [ "/docs/images/ai-pdf-summariser/tooling.jpg"
      , "/docs/images/ai-pdf-summariser/pdf-summariser.jpg" ] }

/-- The Portfolio Blog document (one of the repository's content MDX files). -/
def portfolioBlogDoc : ContentDoc :=
  { frontMatter :=
      { title := "Portfolio Blog"
        description := "A portfolio website and blog for my portfolio" }
    imageSrcs := [ "/docs/images/mywebsite/my-website-collage.jpg" ] }

/-- All content documents of the repository. -/
def contentDocs : List ContentDoc :=
  [financeTrackerDoc, gigCanvasDoc, pdfSummariserDoc, portfolioBlogDoc]

/-- Every image path the repository references: the `src` of each `<Image>`
use in a content document, plus the layout's logo image `src`. -/
def referencedImagePaths : List String :=
  (contentDocs.map ContentDoc.imageSrcs).flatten ++
    ["/docs/images/common/john-paul.jpg"]

/-- An error signalled while evaluating repository code. The sources define
no throw, try/catch or error value, so nothing ever produces one. -/
inductive EvalError where
  | failure : String → EvalError
deriving DecidableEq

/-- Evaluating the `Image` component on props: its body is a single JSX
expression with no conditional and no throw, so evaluation returns the
rendered element. -/
def evalImage (p : ImageProps) : Except EvalError ImageElement :=
  Except.ok (Image p)

/-- Evaluating the build configuration module: its top level is plain
object literals and one plugin application, with no throw. -/
def evalConfig : Except EvalError WrappedConfig :=
  Except.ok exportedConfig

/-- Evaluating the layout configuration module: a plain constant with no
throw. -/
def evalBaseOptions : Except EvalError BaseLayoutProps :=
  Except.ok baseOptions

/-- Spec predicate for the asset rule, stated from the claim's words: the
file name ends in `.png`, `.jpg`, `.jpeg`, `.gif` or `.svg`, compared
case-insensitively. To be compared with the rule embedded from the source. -/
def specEndsInImageExt (name : String) : Prop :=
  strEndsWithCI name ".png" = true ∨ strEndsWithCI name ".jpg" = true ∨
    strEndsWithCI name ".jpeg" = true ∨ strEndsWithCI name ".gif" = true ∨
    strEndsWithCI name ".svg" = true

instance : DecidablePred specEndsInImageExt := fun name => by
  unfold specEndsInImageExt
  infer_instance

/-- C1: for every source path, alt text and pair of dimensions, the `Image`
wrapper forwards exactly the given `src`, `alt`, `width` and `height` to
the rendered `next/image` element. -/
theorem image_forwards_props (src alt : String) (w h : Nat) :
    (Image { src := src, alt := alt, width := some w, height := some h }).child.src
        = src ∧
    (Image { src := src, alt := alt, width := some w, height := some h }).child.alt
        = alt ∧
    (Image { src := src, alt := alt, width := some w, height := some h }).child.width
        = w ∧
    (Image { src := src, alt := alt, width := some w, height := some h }).child.height
        = h :=
  ⟨rfl, rfl, rfl, rfl⟩

/-- C2: the build configuration turns image optimization off, allows SVG
handling, sets the stated content-security-policy header string, and the
asset rule's generator filename is the stated output pattern. -/
theorem config_build_flags :
    config.images.unoptimized = true ∧
    config.images.dangerouslyAllowSVG = true ∧
    config.images.contentSecurityPolicy
        = "default-src 'self'; script-src 'none'; sandbox;" ∧
    assetRule.generatorFilename = "static/media/[name].[hash][ext]" :=
  ⟨rfl, rfl, rfl, rfl⟩

/-- C3: the asset rule maps a file name to the static-media output pattern
exactly when the name ends in one of the five image extensions, compared
case-insensitively. -/
theorem asset_rule_output_iff (name : String) :
    assetRule.output name = some "static/media/[name].[hash][ext]" ↔
      specEndsInImageExt name := by
  have hext : assetRule.test name = true ↔ specEndsInImageExt name := by
    simp [ModuleRule.test, assetRule, specEndsInImageExt, or_assoc]
  rw [ModuleRule.output]
  by_cases h : assetRule.test name = true
  · rw [if_pos h]
    exact iff_of_true rfl (hext.mp h)
  · rw [if_neg h]
    exact iff_of_false (by simp) (fun hs => h (hext.mpr hs))

/-- C4: every content document's front-matter has a non-empty title and a
non-empty description. -/
theorem frontmatter_nonempty (d : ContentDoc) (hd : d ∈ contentDocs) :
    d.frontMatter.title ≠ "" ∧ d.frontMatter.description ≠ "" := by
  fin_cases hd <;> exact ⟨by decide, by decide⟩

/-- Witness for C4 at the Finance Tracker document. -/
theorem frontmatter_nonempty_witness :
    financeTrackerDoc.frontMatter.title ≠ "" ∧
      financeTrackerDoc.frontMatter.description ≠ "" :=
  frontmatter_nonempty financeTrackerDoc (by simp [contentDocs])

/-- C5: the nav title is the 32 by 32 logo image at
`/docs/images/common/john-paul.jpg` followed by the site title text. -/
theorem nav_title_branding :
    baseOptions.nav.title =
      [ TitleFragment.image
          { src := "/docs/images/common/john-paul.jpg"
            alt := "Logo"
            width := 32
            height := 32
            className := "rounded-full" }
      , TitleFragment.text "John Paul's Portfolio" ] :=
  rfl

/-- C6: the exported configuration is the base configuration wrapped by the
MDX plugin created with empty remark and rehype plugin lists and with
provider import source `fumadocs-ui/mdx`. -/
theorem exported_config_is_mdx_wrapped :
    exportedConfig =
      createMDX
        { remarkPlugins := []
          rehypePlugins := []
          providerImportSource := "fumadocs-ui/mdx" }
        config :=
  rfl

/-- C7: no error path exists at this layer: evaluating the `Image` wrapper
on any props and evaluating the configuration constants always returns a
value, never an error. -/
theorem no_error_paths :
    (∀ p : ImageProps, ∃ e, evalImage p = Except.ok e) ∧
    (∃ c, evalConfig = Except.ok c) ∧
    (∃ b, evalBaseOptions = Except.ok b) :=
  ⟨fun p => ⟨Image p, rfl⟩, ⟨exportedConfig, rfl⟩, ⟨baseOptions, rfl⟩⟩

/-- C9: with `width` and `height` omitted the wrapper renders the image at
the default dimensions 800 by 600 (each default applies when its prop alone
is omitted too), and in every case the wrapping container caps the width at
800px and the image is stretched to 100 percent width with automatic height
and marked priority. -/
theorem image_defaults_and_layout (src alt : String) :
    (Image { src := src, alt := alt, width := none, height := none }).child.width
        = 800 ∧
    (Image { src := src, alt := alt, width := none, height := none }).child.height
        = 600 ∧
    (∀ h, (Image { src := src, alt := alt, width := none, height := some h }).child.width
        = 800) ∧
    (∀ w, (Image { src := src, alt := alt, width := some w, height := none }).child.height
        = 600) ∧
    (∀ p : ImageProps,
      (Image p).styleMaxWidth = "800px" ∧
      (Image p).child.styleWidth = "100%" ∧
      (Image p).child.styleHeight = "auto" ∧
      (Image p).child.priority = true) :=
  ⟨rfl, rfl, fun _ => rfl, fun _ => rfl, fun _ => ⟨rfl, rfl, rfl, rfl⟩⟩

/-- C10: the layout options set no nav links: the optional `links` field is
absent while the nav title is populated. -/
theorem base_options_no_links :
    baseOptions.links = none ∧ baseOptions.nav.title ≠ [] :=
  ⟨rfl, by simp [baseOptions]⟩

end Portfolio
